import Mathlib

/-!
Verification of the genai-amep pipeline tasks.

Shallow embedding of the three task scripts:
  - `upload_model` models deploy/tasks/s3-integration/upload_model.py
  - `register_s3_model` models deploy/tasks/register-with-registry/register_s3_model.py
  - `upload_evaluation_results` / `list_evaluations` model the class
    S3EvaluationStorage in deploy/tasks/s3-integration/s3_uploader.py

External effects (client construction, bucket checks, object uploads,
workspace file writes, registry calls) are recorded in an explicit effect
trace; outcomes of remote calls are supplied by "world" records.  Python
string semantics (`str.split`, `str.lower`, `str.strip`, truthiness,
f-string rendering of None, strftime zero padding) are embedded as
structurally recursive functions so that every definition evaluates.
-/

namespace GenaiAmep

/-- Python `str.split(',')` helper: accumulates the current field (reversed). -/
def splitCommaAux : List Char → List Char → List String
  | [], acc => [⟨acc.reverse⟩]
  | c :: cs, acc =>
    if c = ',' then ⟨acc.reverse⟩ :: splitCommaAux cs [] else splitCommaAux cs (c :: acc)

/-- Python `s.split(',')`: note `"".split(',') == ['']`. -/
def splitComma (s : String) : List String := splitCommaAux s.data []

/-- ASCII lowercasing of one character, as Python `str.lower` acts on ASCII. -/
def lowerChar (c : Char) : Char :=
  if 65 ≤ c.toNat ∧ c.toNat ≤ 90 then Char.ofNat (c.toNat + 32) else c

/-- Python `str.lower` (the model names in play are ASCII). -/
def pyLower (s : String) : String := ⟨s.data.map lowerChar⟩

/-- Python whitespace for `str.strip`. -/
def isPySpace (c : Char) : Bool :=
  c = ' ' || c = '\t' || c = '\n' || c = '\r' || c = '\x0b' || c = '\x0c'

/-- Python `str.strip()`. -/
def pyStrip (s : String) : String :=
  ⟨((s.data.dropWhile isPySpace).reverse.dropWhile isPySpace).reverse⟩

/-- Python truthiness of an `os.environ.get` result: `None` and `""` are falsy. -/
def pyTruthy : Option String → Bool
  | none => false
  | some s => !s.data.isEmpty

/-- Python f-string rendering of a possibly-`None` value. -/
def pyStr : Option String → String
  | none => "None"
  | some s => s

/-- Process environment: association list read by `os.environ.get`. -/
abbrev Env := List (String × String)

/-- Model of `os.environ.get(k)`. -/
def getEnv (env : Env) (k : String) : Option String :=
  (env.find? (fun p => p.1 == k)).map (fun p => p.2)

/-- Model of `os.environ.get(k, d)`. -/
def getEnvD (env : Env) (k d : String) : String := (getEnv env k).getD d

/-- Skip check shared verbatim by the Uploader and the Registrar:
`os.environ.get('SKIP_TASK') in os.environ.get('SKIP_TASKS', '').split(',')`.
`None` is never an element of a list of strings. -/
def skipRequested (env : Env) : Bool :=
  match getEnv env "SKIP_TASK" with
  | none => false
  | some v => (splitComma (getEnvD env "SKIP_TASKS" "")).contains v

/-- Externally visible side effects of the scripts. -/
inductive Effect where
  | s3Client : Effect
  | headBucket : String → Effect
  | uploadObject : String → String → Effect
  | writeFile : String → String → Effect
  | registryClient : Effect
  | registerCall : Effect
  | getVersion : Effect
deriving DecidableEq

/-- One regular file under the directory being uploaded: its path relative to
the directory root, its size in bytes, and whether `upload_file` succeeds on it
(`false` models a raised `ClientError`). -/
structure FileEntry where
  relPath : String
  size : Nat
  uploadOk : Bool
deriving DecidableEq

/-- Contents written per path, extracted from an effect trace. -/
def writesTo (p : String) (effs : List Effect) : List String :=
  effs.filterMap (fun e =>
    match e with
    | .writeFile q c => if q = p then some c else none
    | _ => none)

/-- Object keys for which an upload was attempted, in order. -/
def uploadAttempts (effs : List Effect) : List String :=
  effs.filterMap (fun e =>
    match e with
    | .uploadObject _ k => some k
    | _ => none)

/-! ## Model Uploader (upload_model.py) -/

/-- Shared-workspace file the Uploader writes its locator to. -/
def uriFilePath : String := "/workspace/shared-workspace/model_s3_uri"

/-- Shared-workspace file the Registrar writes the version id to. -/
def mvidFilePath : String := "/workspace/shared-workspace/model_version_id"

/-- Key prefix `model-data/{model_name}/{model_version}` (upload_model.py line 79). -/
def modelDataPfx (model_name model_version : String) : String :=
  "model-data/" ++ model_name ++ "/" ++ model_version

/-- Locator the Uploader persists (upload_model.py line 126):
`s3://{bucket_name}/{s3_prefix}`. -/
def uploaderLocator (bucket model_name model_version : String) : String :=
  "s3://" ++ bucket ++ "/" ++ modelDataPfx model_name model_version

/-- Locator the Registrar reconstructs in its fallback branch
(register_s3_model.py line 64), where `model_name` was lowercased at line 51:
`s3://{s3_bucket}/model-data/{model_name}/{model_version}`. -/
def registrarFallbackLocator (bucket model_name model_version : String) : String :=
  "s3://" ++ bucket ++ "/model-data/" ++ pyLower model_name ++ "/" ++ model_version

/-- Remote-world inputs of the Uploader run. -/
structure UploadWorld where
  headBucketOk : Bool
  modelDirExists : Bool
  files : List FileEntry
deriving DecidableEq

/-- Observable outcome of an Uploader run. -/
structure UploadResult where
  exitCode : Nat
  effects : List Effect
  uploadedCount : Nat
  totalSize : Nat
deriving DecidableEq

/-- Upload loop of upload_model.py (lines 88-120): each attempt is recorded;
a `ClientError` (uploadOk = false) aborts immediately (`sys.exit(1)`), so the
remaining files are not attempted.  Returns (effects, count, size, aborted). -/
def uploadLoop (bucket pfx : String) : List FileEntry → List Effect × Nat × Nat × Bool
  | [] => ([], 0, 0, false)
  | f :: rest =>
    let e := Effect.uploadObject bucket (pfx ++ "/" ++ f.relPath)
    if f.uploadOk then
      let r := uploadLoop bucket pfx rest
      (e :: r.1, r.2.1 + 1, r.2.2.1 + f.size, r.2.2.2)
    else
      ([e], 0, 0, true)

/-- The whole upload_model.py script. -/
def upload_model (env : Env) (w : UploadWorld) : UploadResult :=
  if skipRequested env then ⟨0, [], 0, 0⟩
  else
    let bucket_name := getEnv env "S3_BUCKET"
    let access_key := getEnv env "AWS_ACCESS_KEY_ID"
    let secret_key := getEnv env "AWS_SECRET_ACCESS_KEY"
    let model_name := getEnv env "MODEL_NAME"
    let model_version := getEnvD env "MODEL_VERSION" "1.0.0"
    if !(pyTruthy bucket_name && pyTruthy access_key && pyTruthy secret_key &&
        pyTruthy model_name) then
      ⟨1, [], 0, 0⟩
    else
      let bucket := bucket_name.getD ""
      let baseEffs := [Effect.s3Client, Effect.headBucket bucket]
      if !w.headBucketOk then ⟨1, baseEffs, 0, 0⟩
      else if !w.modelDirExists then ⟨1, baseEffs, 0, 0⟩
      else
        let pfx := modelDataPfx (model_name.getD "") model_version
        let r := uploadLoop bucket pfx w.files
        if r.2.2.2 then ⟨1, baseEffs ++ r.1, r.2.1, r.2.2.1⟩
        else
          ⟨0, baseEffs ++ r.1 ++
              [Effect.writeFile uriFilePath
                (uploaderLocator bucket (model_name.getD "") model_version)],
            r.2.1, r.2.2.1⟩

/-! ## Evaluation Storage Utility (s3_uploader.py, class S3EvaluationStorage) -/

/-- Wall-clock timestamp at second granularity, as consumed by
`datetime.now().strftime("%Y%m%d_%H%M%S")`. -/
structure DateTime where
  year : Nat
  month : Nat
  day : Nat
  hour : Nat
  minute : Nat
  second : Nat
deriving DecidableEq

/-- Ranges within which the strftime fields print at their format width. -/
def validDT (t : DateTime) : Prop :=
  t.year < 10000 ∧ t.month < 100 ∧ t.day < 100 ∧ t.hour < 100 ∧
    t.minute < 100 ∧ t.second < 100

/-- Decimal digit character of `n % 10`. -/
def digitChar (n : Nat) : Char := Char.ofNat (48 + n % 10)

/-- Two-digit zero-padded decimal (strftime `%m`, `%d`, `%H`, `%M`, `%S`). -/
def pad2 (n : Nat) : String := ⟨[digitChar (n / 10), digitChar n]⟩

/-- Four-digit zero-padded decimal (strftime `%Y` for years below 10000). -/
def pad4 (n : Nat) : String :=
  ⟨[digitChar (n / 1000), digitChar (n / 100), digitChar (n / 10), digitChar n]⟩

/-- `datetime.strftime("%Y%m%d_%H%M%S")`. -/
def fmtTimestamp (t : DateTime) : String :=
  pad4 t.year ++ pad2 t.month ++ pad2 t.day ++ "_" ++
    pad2 t.hour ++ pad2 t.minute ++ pad2 t.second

/-- Auto-generated evaluation id (s3_uploader.py lines 103-105). -/
def genEvalId (model_name model_version : String) (now : DateTime) : String :=
  model_name ++ "_" ++ model_version ++ "_" ++ fmtTimestamp now

/-- Key prefix `evaluations/{model_name}/{model_version}/{evaluation_id}`
(s3_uploader.py line 107). -/
def evalPfx (model_name model_version evaluation_id : String) : String :=
  "evaluations/" ++ model_name ++ "/" ++ model_version ++ "/" ++ evaluation_id

/-- Remote-world inputs of one evaluation upload. -/
structure EvalWorld where
  dirExists : Bool
  files : List FileEntry
deriving DecidableEq

/-- Observable outcome of a successful evaluation upload. -/
structure EvalUploadOut where
  s3Pfx : String
  effects : List Effect
  uploadedCount : Nat
  totalSize : Nat
deriving DecidableEq

/-- Upload loop of S3EvaluationStorage.upload_evaluation_results (lines
117-148): a `ClientError` on one file is logged and the loop continues with
the remaining files; the failed file is not counted. -/
def evalUploadLoop (bucket pfx : String) : List FileEntry → List Effect × Nat × Nat
  | [] => ([], 0, 0)
  | f :: rest =>
    let e := Effect.uploadObject bucket (pfx ++ "/" ++ f.relPath)
    let r := evalUploadLoop bucket pfx rest
    if f.uploadOk then (e :: r.1, r.2.1 + 1, r.2.2 + f.size) else (e :: r.1, r.2.1, r.2.2)

/-- S3EvaluationStorage.upload_evaluation_results (lines 80-152).  A missing
results directory raises ValueError before any upload; otherwise the id is
generated when the given one is falsy, every file is attempted, and the prefix
is returned. -/
def upload_evaluation_results (bucket : String) (w : EvalWorld)
    (model_name model_version : String) (evaluationId : Option String)
    (now : DateTime) : Except String EvalUploadOut :=
  if !w.dirExists then .error "Results directory not found"
  else
    let evaluation_id :=
      if pyTruthy evaluationId then evaluationId.getD ""
      else genEvalId model_name model_version now
    let pfx := evalPfx model_name model_version evaluation_id
    let r := evalUploadLoop bucket pfx w.files
    .ok ⟨pfx, r.1, r.2.1, r.2.2⟩

/-- Query prefix of S3EvaluationStorage.list_evaluations (lines 221-225):
`evaluations/`, extended by `{model_name}/` when that filter is truthy, then by
`{model_version}/` when that one is too. -/
def listPfx (model_name model_version : Option String) : String :=
  let pfx := "evaluations/"
  if pyTruthy model_name then
    let pfx2 := pfx ++ model_name.getD "" ++ "/"
    if pyTruthy model_version then pfx2 ++ model_version.getD "" ++ "/" else pfx2
  else pfx

/-- Removes a leading pattern from a key, character by character. -/
def stripPfxChars : List Char → List Char → Option (List Char)
  | [], key => some key
  | _ :: _, [] => none
  | p :: ps, c :: cs => if p = c then stripPfxChars ps cs else none

/-- Characters before the first '/', provided a '/' occurs. -/
def firstSeg : List Char → Option (List Char)
  | [] => none
  | c :: cs => if c = '/' then some [] else (firstSeg cs).map (fun l => c :: l)

/-- S3 ListObjectsV2 common-prefix of one key for query prefix `qry` and
delimiter '/': defined exactly when the key starts with `qry` and has a '/'
later; the result is `qry` plus the next segment plus '/'. -/
def cpfxOf (qry : String) (key : String) : Option String :=
  match stripPfxChars qry.data key.data with
  | none => none
  | some rest => (firstSeg rest).map (fun seg => qry ++ ⟨seg⟩ ++ "/")

/-- CommonPrefixes returned by paginated ListObjectsV2 over the bucket's keys. -/
def commonPfxs (keys : List String) (qry : String) : List String :=
  (keys.filterMap (cpfxOf qry)).dedup

/-- Summary object key `{eval_prefix}cross_language_summary.json` (line 243). -/
def summaryKey (p : String) : String := p ++ "cross_language_summary.json"

/-- Python `d[k] = v` on a JSON object modelled as an association list. -/
def dictSet (d : List (String × String)) (k v : String) : List (String × String) :=
  if d.any (fun e => e.1 == k) then
    d.map (fun e => if e.1 == k then (k, v) else e)
  else d ++ [(k, v)]

/-- Minimal metadata used when the summary fetch raises ClientError (lines
252-258). -/
def fallbackEntry (p : String) : List (String × String) :=
  [("s3_prefix", p), ("model_name", "unknown"), ("model_version", "unknown")]

/-- S3EvaluationStorage.list_evaluations (lines 206-260).  `getObject` yields
the parsed summary object at a key, or `none` when `get_object` raises
ClientError (object missing or unreadable). -/
def list_evaluations (keys : List String)
    (getObject : String → Option (List (String × String)))
    (model_name model_version : Option String) : List (List (String × String)) :=
  let pfx := listPfx model_name model_version
  (commonPfxs keys pfx).map (fun p =>
    match getObject (summaryKey p) with
    | some metadata => dictSet metadata "s3_prefix" p
    | none => fallbackEntry p)

/-! ## Registry Registrar (register_s3_model.py) -/

/-- Outcome of `registry.register_model` (line 72). -/
inductive RegCallOutcome where
  | ok : RegCallOutcome
  | storeError : RegCallOutcome
  | otherError : RegCallOutcome
deriving DecidableEq

/-- Outcome of `registry.get_model_version` (lines 92, 95, 108). -/
inductive LookupOutcome where
  | found : Nat → LookupOutcome
  | raisesStore : LookupOutcome
  | raisesOther : LookupOutcome
deriving DecidableEq

/-- Remote-world inputs of one Registrar run. -/
structure RegWorld where
  uriFileContent : Option String
  regOutcome : RegCallOutcome
  lookup : LookupOutcome
deriving DecidableEq

/-- Observable outcome of a script run: exit code and effect trace. -/
structure RunResult where
  exitCode : Nat
  effects : List Effect
deriving DecidableEq

/-- The `except StoreError` handler (register_s3_model.py lines 104-121):
look up the existing version; on success persist its id and exit 0; any
exception during that lookup exits 1. -/
def storeErrorHandler (w : RegWorld) (effs : List Effect) : RunResult :=
  match w.lookup with
  | .found id => ⟨0, effs ++ [Effect.getVersion, Effect.writeFile mvidFilePath (toString id)]⟩
  | _ => ⟨1, effs ++ [Effect.getVersion]⟩

/-- The whole register_s3_model.py script.  The namespace file read (line 25)
has no modelled effect; the registry client construction (line 43) is traced.
On a missing MODEL_NAME the attribute access `None.lower()` raises, which
terminates the process with exit code 1. -/
def register_s3_model (env : Env) (w : RegWorld) : RunResult :=
  if skipRequested env then ⟨0, []⟩
  else if !pyTruthy (getEnv env "MODEL_REGISTRY_URL") then ⟨1, []⟩
  else
    let effs0 := [Effect.registryClient]
    match getEnv env "MODEL_NAME" with
    | none => ⟨1, effs0⟩
    | some mn =>
      let model_version := pyStr (getEnv env "MODEL_VERSION")
      let s3uriOpt : Option String :=
        match w.uriFileContent with
        | some content => some (pyStrip content)
        | none =>
          if pyTruthy (getEnv env "S3_BUCKET") then
            some (registrarFallbackLocator ((getEnv env "S3_BUCKET").getD "") mn
              model_version)
          else none
      match s3uriOpt with
      | none => ⟨1, effs0⟩
      | some _ =>
        let effs1 := effs0 ++ [Effect.registerCall]
        match w.regOutcome with
        | .ok =>
          match w.lookup with
          | .found id =>
              ⟨0, effs1 ++ [Effect.getVersion, Effect.getVersion,
                Effect.writeFile mvidFilePath (toString id)]⟩
          | .raisesStore => storeErrorHandler w (effs1 ++ [Effect.getVersion])
          | .raisesOther => ⟨1, effs1 ++ [Effect.getVersion]⟩
        | .storeError => storeErrorHandler w effs1
        | .otherError => ⟨1, effs1⟩

/-! ## Helper lemmas -/

theorem pyTruthy_some_ne (s : String) (h : s ≠ "") : pyTruthy (some s) = true := by
  unfold pyTruthy
  cases s with
  | mk data =>
    cases data with
    | nil => exact absurd rfl h
    | cons c cs => rfl

theorem uploadLoop_all_ok (bucket pfx : String) (files : List FileEntry)
    (h : ∀ f ∈ files, f.uploadOk = true) :
    uploadLoop bucket pfx files =
      (files.map (fun f => Effect.uploadObject bucket (pfx ++ "/" ++ f.relPath)),
        files.length, (files.map (fun f => f.size)).sum, false) := by
  induction files with
  | nil => rfl
  | cons f rest ih =>
    have hf := h f (by simp)
    have hr := ih (fun g hg => h g (by simp [hg]))
    simp [uploadLoop, hf, hr]
    omega

theorem uploadLoop_abort (bucket pfx : String) (pre post : List FileEntry) (bad : FileEntry)
    (hpre : ∀ f ∈ pre, f.uploadOk = true) (hbad : bad.uploadOk = false) :
    uploadLoop bucket pfx (pre ++ bad :: post) =
      ((pre ++ [bad]).map (fun f => Effect.uploadObject bucket (pfx ++ "/" ++ f.relPath)),
        pre.length, (pre.map (fun f => f.size)).sum, true) := by
  induction pre with
  | nil => simp [uploadLoop, hbad]
  | cons f rest ih =>
    have hf := hpre f (by simp)
    have hr := ih (fun g hg => hpre g (by simp [hg]))
    simp [uploadLoop, hf, hr]
    omega

theorem evalUploadLoop_spec (bucket pfx : String) (files : List FileEntry) :
    evalUploadLoop bucket pfx files =
      (files.map (fun f => Effect.uploadObject bucket (pfx ++ "/" ++ f.relPath)),
        (files.filter (fun f => f.uploadOk)).length,
        ((files.filter (fun f => f.uploadOk)).map (fun f => f.size)).sum) := by
  induction files with
  | nil => rfl
  | cons f rest ih =>
    cases hf : f.uploadOk
    · simp [evalUploadLoop, hf, ih, List.filter_cons]
    · simp [evalUploadLoop, hf, ih, List.filter_cons]
      omega

theorem writesTo_append (p : String) (l1 l2 : List Effect) :
    writesTo p (l1 ++ l2) = writesTo p l1 ++ writesTo p l2 := by
  unfold writesTo
  exact List.filterMap_append l1 l2 _

theorem writesTo_uploadObjects (p bucket : String) (l : List FileEntry)
    (k : FileEntry → String) :
    writesTo p (l.map (fun f => Effect.uploadObject bucket (k f))) = [] := by
  induction l with
  | nil => rfl
  | cons f rest ih => simp [writesTo, List.filterMap_cons]

theorem uploadAttempts_append (l1 l2 : List Effect) :
    uploadAttempts (l1 ++ l2) = uploadAttempts l1 ++ uploadAttempts l2 := by
  unfold uploadAttempts
  exact List.filterMap_append l1 l2 _

theorem uploadAttempts_uploadObjects (bucket : String) (l : List FileEntry)
    (k : FileEntry → String) :
    uploadAttempts (l.map (fun f => Effect.uploadObject bucket (k f))) = l.map k := by
  induction l with
  | nil => rfl
  | cons f rest ih => simpa [uploadAttempts, List.filterMap_cons] using ih

theorem digitChar_inj (a b : Nat) (h : digitChar a = digitChar b) : a % 10 = b % 10 := by
  have key : ∀ x y : Fin 10, digitChar x.val = digitChar y.val → x.val = y.val := by decide
  have ha : digitChar (a % 10) = digitChar a := by
    unfold digitChar
    congr 1
    omega
  have hb : digitChar (b % 10) = digitChar b := by
    unfold digitChar
    congr 1
    omega
  have hk := key ⟨a % 10, by omega⟩ ⟨b % 10, by omega⟩ (by rw [ha, hb]; exact h)
  simpa using hk

theorem fmtTimestamp_data (t : DateTime) : (fmtTimestamp t).data =
    [digitChar (t.year / 1000), digitChar (t.year / 100), digitChar (t.year / 10),
      digitChar t.year, digitChar (t.month / 10), digitChar t.month,
      digitChar (t.day / 10), digitChar t.day, '_',
      digitChar (t.hour / 10), digitChar t.hour, digitChar (t.minute / 10),
      digitChar t.minute, digitChar (t.second / 10), digitChar t.second] := rfl

theorem dtExt (t1 t2 : DateTime) (hy : t1.year = t2.year) (hmo : t1.month = t2.month)
    (hd : t1.day = t2.day) (hh : t1.hour = t2.hour) (hmi : t1.minute = t2.minute)
    (hs : t1.second = t2.second) : t1 = t2 := by
  cases t1
  cases t2
  simp only [DateTime.mk.injEq]
  exact ⟨hy, hmo, hd, hh, hmi, hs⟩

theorem fmtTimestamp_inj (t1 t2 : DateTime) (h1 : validDT t1) (h2 : validDT t2)
    (h : fmtTimestamp t1 = fmtTimestamp t2) : t1 = t2 := by
  obtain ⟨hy1, hmo1, hd1, hh1, hmi1, hs1⟩ := h1
  obtain ⟨hy2, hmo2, hd2, hh2, hmi2, hs2⟩ := h2
  have hdata := congrArg String.data h
  rw [fmtTimestamp_data, fmtTimestamp_data] at hdata
  simp only [List.cons.injEq, and_true] at hdata
  obtain ⟨e1, e2, e3, e4, e5, e6, e7, e8, -, e9, e10, e11, e12, e13, e14⟩ := hdata
  have q1 := digitChar_inj _ _ e1
  have q2 := digitChar_inj _ _ e2
  have q3 := digitChar_inj _ _ e3
  have q4 := digitChar_inj _ _ e4
  have q5 := digitChar_inj _ _ e5
  have q6 := digitChar_inj _ _ e6
  have q7 := digitChar_inj _ _ e7
  have q8 := digitChar_inj _ _ e8
  have q9 := digitChar_inj _ _ e9
  have q10 := digitChar_inj _ _ e10
  have q11 := digitChar_inj _ _ e11
  have q12 := digitChar_inj _ _ e12
  have q13 := digitChar_inj _ _ e13
  have q14 := digitChar_inj _ _ e14
  exact dtExt t1 t2 (by omega) (by omega) (by omega) (by omega) (by omega) (by omega)

theorem commonPfx_extends (keys : List String) (qry p : String)
    (hp : p ∈ commonPfxs keys qry) : ∃ r, p = qry ++ r := by
  unfold commonPfxs at hp
  rw [List.mem_dedup] at hp
  obtain ⟨k, hk, hck⟩ := List.mem_filterMap.mp hp
  unfold cpfxOf at hck
  cases hsp : stripPfxChars qry.data k.data with
  | none => simp [hsp] at hck
  | some rest =>
    simp only [hsp] at hck
    cases hfs : firstSeg rest with
    | none => simp [hfs] at hck
    | some seg =>
      simp only [hfs, Option.map_some', Option.some.injEq] at hck
      exact ⟨⟨seg⟩ ++ "/", by rw [← hck, String.append_assoc]⟩

theorem dictSet_mem (d : List (String × String)) (k v : String) :
    (k, v) ∈ dictSet d k v := by
  unfold dictSet
  cases hany : d.any (fun e => e.1 == k) with
  | false => simp [hany]
  | true =>
    simp only [hany, if_true]
    obtain ⟨x, hx, hxk⟩ := List.any_eq_true.mp hany
    apply List.mem_map.mpr
    exact ⟨x, hx, by simp [hxk]⟩

/-! ## Claim theorems -/

/-- Claim C1, counterexample: the Uploader's persisted locator and the
Registrar's fallback locator are not byte-identical for every model name:
the Registrar lowercases the name (register_s3_model.py line 51) while the
Uploader uses it as given, so they differ at bucket "b", name "Model",
version "1.0.0". -/
theorem locator_fallback_mismatch_cex :
    uploaderLocator "b" "Model" "1.0.0" ≠ registrarFallbackLocator "b" "Model" "1.0.0" := by
  decide

/-- Claim C1, amended: whenever the model name is unchanged by lowercasing
(contains no ASCII uppercase letter), the locator the Registrar reconstructs
in its fallback branch is byte-identical to the locator the Uploader
persists, for every bucket and version. -/
theorem locator_fallback_agrees_on_lowercase (bucket mn mv : String)
    (h : pyLower mn = mn) :
    registrarFallbackLocator bucket mn mv = uploaderLocator bucket mn mv := by
  unfold registrarFallbackLocator uploaderLocator modelDataPfx
  rw [h]
  have h2 : ("/model-data/" : String) = "/" ++ "model-data/" := by decide
  rw [h2]
  simp only [String.append_assoc]

/-- Witness for the amended C1 at a concrete lowercase model name. -/
theorem locator_fallback_agrees_on_lowercase_witness :
    registrarFallbackLocator "bkt" "granite-model" "1.0.0" =
      uploaderLocator "bkt" "granite-model" "1.0.0" :=
  locator_fallback_agrees_on_lowercase "bkt" "granite-model" "1.0.0" (by decide)

/-- Claim C9: when SKIP_TASK is set and its value is an element of the
comma-split SKIP_TASKS, both the Uploader and the Registrar exit 0 with an
empty effect trace: no client construction, no network call, no file write. -/
theorem skip_list_noop (env : Env) (w : UploadWorld) (rw : RegWorld) (v : String)
    (h1 : getEnv env "SKIP_TASK" = some v)
    (h2 : (splitComma (getEnvD env "SKIP_TASKS" "")).contains v = true) :
    upload_model env w = ⟨0, [], 0, 0⟩ ∧ register_s3_model env rw = ⟨0, []⟩ := by
  have hs : skipRequested env = true := by
    unfold skipRequested
    rw [h1]
    exact h2
  constructor
  · simp [upload_model, hs]
  · simp [register_s3_model, hs]

/-- Witness for C9 at a concrete environment and worlds. -/
theorem skip_list_noop_witness :
    upload_model [("SKIP_TASK", "x"), ("SKIP_TASKS", "x,y")] ⟨true, true, []⟩ =
      ⟨0, [], 0, 0⟩ ∧
    register_s3_model [("SKIP_TASK", "x"), ("SKIP_TASKS", "x,y")] ⟨none, .ok, .found 1⟩ =
      ⟨0, []⟩ :=
  skip_list_noop _ _ _ "x" (by decide) (by decide)

/-- Claim C10: SKIP_TASK set to the empty string while SKIP_TASKS is unset or
empty means the comma-split skip list is the singleton list of the empty
string, so both tasks are skipped (exit 0, no effects); SKIP_TASK unset never
skips, whatever SKIP_TASKS holds. -/
theorem skip_empty_string_edge (env1 env2 : Env) (w1 : UploadWorld) (rw1 : RegWorld)
    (h1 : getEnv env1 "SKIP_TASK" = some "")
    (h2 : getEnv env1 "SKIP_TASKS" = none ∨ getEnv env1 "SKIP_TASKS" = some "")
    (h3 : getEnv env2 "SKIP_TASK" = none) :
    upload_model env1 w1 = ⟨0, [], 0, 0⟩ ∧ register_s3_model env1 rw1 = ⟨0, []⟩ ∧
    skipRequested env2 = false := by
  have hs : skipRequested env1 = true := by
    unfold skipRequested getEnvD
    rw [h1]
    rcases h2 with h | h <;> rw [h] <;> decide
  refine ⟨by simp [upload_model, hs], by simp [register_s3_model, hs], ?_⟩
  unfold skipRequested
  rw [h3]

/-- Witness for C10 at concrete environments. -/
theorem skip_empty_string_edge_witness :
    upload_model [("SKIP_TASK", "")] ⟨true, true, []⟩ = ⟨0, [], 0, 0⟩ ∧
    register_s3_model [("SKIP_TASK", "")] ⟨none, .ok, .found 1⟩ = ⟨0, []⟩ ∧
    skipRequested [("SKIP_TASKS", "a,b")] = false :=
  skip_empty_string_edge [("SKIP_TASK", "")] [("SKIP_TASKS", "a,b")] _ _
    (by decide) (Or.inl (by decide)) (by decide)

/-- Claim C8: with the task not skipped, a missing required environment
variable (bucket, access key, secret key or model name for the Uploader; the
registry server address for the Registrar) makes the task exit 1 with an
empty effect trace, hence before any storage or registry client is
constructed and with no network call attempted. -/
theorem missing_env_exits_before_client (env : Env) (w : UploadWorld) (rw : RegWorld)
    (hskip : skipRequested env = false) :
    ((getEnv env "S3_BUCKET" = none ∨ getEnv env "AWS_ACCESS_KEY_ID" = none ∨
      getEnv env "AWS_SECRET_ACCESS_KEY" = none ∨ getEnv env "MODEL_NAME" = none) →
      upload_model env w = ⟨1, [], 0, 0⟩) ∧
    (getEnv env "MODEL_REGISTRY_URL" = none → register_s3_model env rw = ⟨1, []⟩) := by
  constructor
  · intro h
    rcases h with h | h | h | h <;> simp [upload_model, hskip, h, pyTruthy]
  · intro h
    simp [register_s3_model, hskip, h, pyTruthy]

/-- Witness for C8 at the empty environment (everything missing, not skipped). -/
theorem missing_env_exits_before_client_witness :
    upload_model [] ⟨true, true, []⟩ = ⟨1, [], 0, 0⟩ ∧
    register_s3_model [] ⟨none, .ok, .found 1⟩ = ⟨1, []⟩ := by
  have h := missing_env_exits_before_client [] ⟨true, true, []⟩ ⟨none, .ok, .found 1⟩
    (by decide)
  exact ⟨h.1 (Or.inl (by decide)), h.2 (by decide)⟩

/-- Claim C5: with valid configuration, an existing bucket and directory, and
every upload succeeding, the Uploader uploads exactly one object per regular
file, reports the exact cumulative byte size, and persists the locator
`s3://{bucket}/model-data/{model}/{version}` (the spec's `storage://` scheme
rendered as `s3://`) to the shared-workspace locator file. -/
theorem uploader_success_counts_and_locator (env : Env) (w : UploadWorld)
    (bucket akey skey name ver : String)
    (hskip : skipRequested env = false)
    (hb : getEnv env "S3_BUCKET" = some bucket) (hb0 : bucket ≠ "")
    (hk : getEnv env "AWS_ACCESS_KEY_ID" = some akey) (hk0 : akey ≠ "")
    (hs : getEnv env "AWS_SECRET_ACCESS_KEY" = some skey) (hs0 : skey ≠ "")
    (hn : getEnv env "MODEL_NAME" = some name) (hn0 : name ≠ "")
    (hv : getEnv env "MODEL_VERSION" = some ver)
    (hhb : w.headBucketOk = true) (hd : w.modelDirExists = true)
    (hok : ∀ f ∈ w.files, f.uploadOk = true) :
    (upload_model env w).exitCode = 0 ∧
    (upload_model env w).uploadedCount = w.files.length ∧
    (upload_model env w).totalSize = (w.files.map (fun f => f.size)).sum ∧
    writesTo uriFilePath (upload_model env w).effects =
      [uploaderLocator bucket name ver] := by
  have hloop := uploadLoop_all_ok bucket (modelDataPfx name ver) w.files hok
  have hres : upload_model env w =
      ⟨0, [Effect.s3Client, Effect.headBucket bucket] ++
          w.files.map (fun f =>
            Effect.uploadObject bucket (modelDataPfx name ver ++ "/" ++ f.relPath)) ++
          [Effect.writeFile uriFilePath (uploaderLocator bucket name ver)],
        w.files.length, (w.files.map (fun f => f.size)).sum⟩ := by
    unfold upload_model
    rw [hskip, hb, hk, hs, hn]
    unfold getEnvD
    rw [hv]
    simp only [pyTruthy_some_ne bucket hb0, pyTruthy_some_ne akey hk0,
      pyTruthy_some_ne skey hs0, pyTruthy_some_ne name hn0, Bool.and_self,
      Bool.and_true, Bool.true_and, Bool.not_true, Option.getD_some]
    rw [hhb, hd]
    simp only [Bool.not_true, Bool.false_eq_true, if_false, hloop]
  rw [hres]
  refine ⟨rfl, rfl, rfl, ?_⟩
  simp only [writesTo_append, writesTo_uploadObjects]
  simp [writesTo]

/-- Witness for C5: two files of sizes 3 and 4 under bucket "b". -/
theorem uploader_success_counts_and_locator_witness :
    (upload_model
        [("S3_BUCKET", "b"), ("AWS_ACCESS_KEY_ID", "k"), ("AWS_SECRET_ACCESS_KEY", "s"),
          ("MODEL_NAME", "m"), ("MODEL_VERSION", "2.0")]
        ⟨true, true, [⟨"a.bin", 3, true⟩, ⟨"cfg/c.json", 4, true⟩]⟩).exitCode = 0 ∧
    (upload_model
        [("S3_BUCKET", "b"), ("AWS_ACCESS_KEY_ID", "k"), ("AWS_SECRET_ACCESS_KEY", "s"),
          ("MODEL_NAME", "m"), ("MODEL_VERSION", "2.0")]
        ⟨true, true, [⟨"a.bin", 3, true⟩, ⟨"cfg/c.json", 4, true⟩]⟩).uploadedCount =
      ([⟨"a.bin", 3, true⟩, ⟨"cfg/c.json", 4, true⟩] : List FileEntry).length ∧
    (upload_model
        [("S3_BUCKET", "b"), ("AWS_ACCESS_KEY_ID", "k"), ("AWS_SECRET_ACCESS_KEY", "s"),
          ("MODEL_NAME", "m"), ("MODEL_VERSION", "2.0")]
        ⟨true, true, [⟨"a.bin", 3, true⟩, ⟨"cfg/c.json", 4, true⟩]⟩).totalSize =
      (([⟨"a.bin", 3, true⟩, ⟨"cfg/c.json", 4, true⟩] : List FileEntry).map
        (fun f => f.size)).sum ∧
    writesTo uriFilePath
        (upload_model
          [("S3_BUCKET", "b"), ("AWS_ACCESS_KEY_ID", "k"), ("AWS_SECRET_ACCESS_KEY", "s"),
            ("MODEL_NAME", "m"), ("MODEL_VERSION", "2.0")]
          ⟨true, true, [⟨"a.bin", 3, true⟩, ⟨"cfg/c.json", 4, true⟩]⟩).effects =
      [uploaderLocator "b" "m" "2.0"] :=
  uploader_success_counts_and_locator _ _ "b" "k" "s" "m" "2.0"
    (by decide) (by decide) (by decide) (by decide) (by decide) (by decide)
    (by decide) (by decide) (by decide) (by decide) rfl rfl
    (by decide)

/-- Claim C3: over the same directory shape (at least two regular files, one
of which fails with a ClientError, all others succeeding), the Model Uploader
exits 1 immediately after the failing file without attempting any remaining
file, while the Evaluation Storage Utility attempts every file, completes,
and reports only the reduced count. -/
theorem upload_failure_asymmetry (env : Env) (w : UploadWorld)
    (bucket akey skey name ver : String) (pre post : List FileEntry) (bad : FileEntry)
    (ew : EvalWorld) (em ev : String) (eid : Option String) (now : DateTime)
    (hskip : skipRequested env = false)
    (hb : getEnv env "S3_BUCKET" = some bucket) (hb0 : bucket ≠ "")
    (hk : getEnv env "AWS_ACCESS_KEY_ID" = some akey) (hk0 : akey ≠ "")
    (hs : getEnv env "AWS_SECRET_ACCESS_KEY" = some skey) (hs0 : skey ≠ "")
    (hn : getEnv env "MODEL_NAME" = some name) (hn0 : name ≠ "")
    (hv : getEnv env "MODEL_VERSION" = some ver)
    (hhb : w.headBucketOk = true) (hd : w.modelDirExists = true)
    (hfiles : w.files = pre ++ bad :: post)
    (hpre : ∀ f ∈ pre, f.uploadOk = true) (hbad : bad.uploadOk = false)
    (hpost : ∀ f ∈ post, f.uploadOk = true)
    (_hlen : 2 ≤ w.files.length)
    (hew : ew.dirExists = true) (hewf : ew.files = pre ++ bad :: post) :
    (upload_model env w).exitCode = 1 ∧
    uploadAttempts (upload_model env w).effects =
      (pre ++ [bad]).map (fun f => modelDataPfx name ver ++ "/" ++ f.relPath) ∧
    (∃ out, upload_evaluation_results bucket ew em ev eid now = Except.ok out ∧
      uploadAttempts out.effects =
        (pre ++ bad :: post).map (fun f => out.s3Pfx ++ "/" ++ f.relPath) ∧
      out.uploadedCount = (pre ++ bad :: post).length - 1) := by
  have hloop := uploadLoop_abort bucket (modelDataPfx name ver) pre post bad hpre hbad
  have hres : upload_model env w =
      ⟨1, [Effect.s3Client, Effect.headBucket bucket] ++
          (pre ++ [bad]).map (fun f =>
            Effect.uploadObject bucket (modelDataPfx name ver ++ "/" ++ f.relPath)),
        pre.length, (pre.map (fun f => f.size)).sum⟩ := by
    unfold upload_model
    rw [hskip, hb, hk, hs, hn]
    unfold getEnvD
    rw [hv]
    simp only [pyTruthy_some_ne bucket hb0, pyTruthy_some_ne akey hk0,
      pyTruthy_some_ne skey hs0, pyTruthy_some_ne name hn0, Bool.and_self,
      Bool.and_true, Bool.true_and, Bool.not_true, Option.getD_some]
    rw [hhb, hd, hfiles]
    simp only [Bool.not_true, Bool.false_eq_true, if_false, hloop,
      eq_self_iff_true, if_true]
  refine ⟨by rw [hres], ?_, ?_⟩
  · rw [hres]
    simp only [uploadAttempts_append, uploadAttempts_uploadObjects]
    simp [uploadAttempts]
  · have hfilter : (pre ++ bad :: post).filter (fun f => f.uploadOk) = pre ++ post := by
      have h1 : pre.filter (fun f => f.uploadOk) = pre :=
        List.filter_eq_self.mpr (fun a ha => hpre a ha)
      have h2 : post.filter (fun f => f.uploadOk) = post :=
        List.filter_eq_self.mpr (fun a ha => hpost a ha)
      rw [List.filter_append, h1, List.filter_cons]
      simp [hbad, h2]
    unfold upload_evaluation_results
    rw [hew]
    simp only [Bool.not_true, Bool.false_eq_true, if_false]
    refine ⟨_, rfl, ?_, ?_⟩
    · simp only [hewf, evalUploadLoop_spec]
      exact uploadAttempts_uploadObjects _ _ _
    · simp only [hewf, evalUploadLoop_spec, hfilter]
      simp only [List.length_append, List.length_cons, List.length_map]
      omega

/-- Witness for C3: first file fails, second would succeed; the Uploader
attempts only the first, the utility attempts both and counts one. -/
theorem upload_failure_asymmetry_witness :
    (upload_model
        [("S3_BUCKET", "b"), ("AWS_ACCESS_KEY_ID", "k"), ("AWS_SECRET_ACCESS_KEY", "s"),
          ("MODEL_NAME", "m"), ("MODEL_VERSION", "1.0")]
        ⟨true, true, [⟨"a.bin", 1, false⟩, ⟨"b.bin", 2, true⟩]⟩).exitCode = 1 ∧
    uploadAttempts (upload_model
        [("S3_BUCKET", "b"), ("AWS_ACCESS_KEY_ID", "k"), ("AWS_SECRET_ACCESS_KEY", "s"),
          ("MODEL_NAME", "m"), ("MODEL_VERSION", "1.0")]
        ⟨true, true, [⟨"a.bin", 1, false⟩, ⟨"b.bin", 2, true⟩]⟩).effects =
      (([] ++ [⟨"a.bin", 1, false⟩] : List FileEntry)).map
        (fun f => modelDataPfx "m" "1.0" ++ "/" ++ f.relPath) ∧
    (∃ out, upload_evaluation_results "b" ⟨true, [⟨"a.bin", 1, false⟩, ⟨"b.bin", 2, true⟩]⟩
        "m" "1.0" none ⟨2025, 1, 2, 3, 4, 5⟩ = Except.ok out ∧
      uploadAttempts out.effects =
        (([] ++ ⟨"a.bin", 1, false⟩ :: [⟨"b.bin", 2, true⟩] : List FileEntry)).map
          (fun f => out.s3Pfx ++ "/" ++ f.relPath) ∧
      out.uploadedCount =
        (([] ++ ⟨"a.bin", 1, false⟩ :: [⟨"b.bin", 2, true⟩] : List FileEntry)).length - 1) :=
  upload_failure_asymmetry _ _ "b" "k" "s" "m" "1.0" [] [⟨"b.bin", 2, true⟩]
    ⟨"a.bin", 1, false⟩ ⟨true, [⟨"a.bin", 1, false⟩, ⟨"b.bin", 2, true⟩]⟩ "m" "1.0" none
    ⟨2025, 1, 2, 3, 4, 5⟩
    (by decide) (by decide) (by decide) (by decide) (by decide) (by decide) (by decide)
    (by decide) (by decide) (by decide) rfl rfl rfl (by decide) rfl (by decide)
    (by decide) rfl rfl

/-- Claim C2: when the registration call raises the registry's StoreError
("version already exists"), the Registrar fetches the existing version's
identifier, writes it to /workspace/shared-workspace/model_version_id with
the same content the first-time-success path writes, and exits 0; if the
lookup after the conflict itself raises, the Registrar exits 1. -/
theorem registrar_conflict_idempotent (env : Env) (w : RegWorld) (mn u : String)
    (hskip : skipRequested env = false)
    (hurl : pyTruthy (getEnv env "MODEL_REGISTRY_URL") = true)
    (hmn : getEnv env "MODEL_NAME" = some mn)
    (hu : w.uriFileContent = some u)
    (hconf : w.regOutcome = RegCallOutcome.storeError) :
    (∀ id, w.lookup = LookupOutcome.found id →
      (register_s3_model env w).exitCode = 0 ∧
      writesTo mvidFilePath (register_s3_model env w).effects = [toString id] ∧
      writesTo mvidFilePath
          (register_s3_model env { w with regOutcome := RegCallOutcome.ok }).effects =
        [toString id]) ∧
    ((w.lookup = LookupOutcome.raisesStore ∨ w.lookup = LookupOutcome.raisesOther) →
      (register_s3_model env w).exitCode = 1) := by
  constructor
  · intro id hid
    refine ⟨?_, ?_, ?_⟩ <;>
      simp [register_s3_model, hskip, hurl, hmn, hu, hconf, hid, storeErrorHandler,
        writesTo, mvidFilePath]
  · intro hfail
    rcases hfail with hfail | hfail <;>
      simp [register_s3_model, hskip, hurl, hmn, hu, hconf, hfail, storeErrorHandler]

/-- Witness for C2 at a concrete environment, conflict outcome and id 7. -/
theorem registrar_conflict_idempotent_witness :
    (register_s3_model
        [("MODEL_REGISTRY_URL", "http://reg"), ("MODEL_NAME", "M"), ("MODEL_VERSION", "1")]
        ⟨some "s3://b/p", RegCallOutcome.storeError, LookupOutcome.found 7⟩).exitCode = 0 ∧
    writesTo mvidFilePath
        (register_s3_model
          [("MODEL_REGISTRY_URL", "http://reg"), ("MODEL_NAME", "M"), ("MODEL_VERSION", "1")]
          ⟨some "s3://b/p", RegCallOutcome.storeError, LookupOutcome.found 7⟩).effects =
      [toString 7] ∧
    writesTo mvidFilePath
        (register_s3_model
          [("MODEL_REGISTRY_URL", "http://reg"), ("MODEL_NAME", "M"), ("MODEL_VERSION", "1")]
          ⟨some "s3://b/p", RegCallOutcome.ok, LookupOutcome.found 7⟩).effects =
      [toString 7] :=
  (registrar_conflict_idempotent
    [("MODEL_REGISTRY_URL", "http://reg"), ("MODEL_NAME", "M"), ("MODEL_VERSION", "1")]
    ⟨some "s3://b/p", RegCallOutcome.storeError, LookupOutcome.found 7⟩ "M" "s3://b/p"
    (by decide) (by decide) (by decide) rfl rfl).1 7 rfl

/-- Claim C4: a directory-like grouping whose summary object fetch raises
ClientError still contributes an entry to the listing: the minimal mapping
with model_name and model_version "unknown" and the grouping's storage
prefix; and the listing is never shortened by such failures (one entry per
grouping). -/
theorem listing_summary_fallback (keys : List String)
    (getObject : String → Option (List (String × String)))
    (mn mv : Option String) (p : String)
    (hp : p ∈ commonPfxs keys (listPfx mn mv))
    (hfail : getObject (summaryKey p) = none) :
    fallbackEntry p ∈ list_evaluations keys getObject mn mv ∧
    (list_evaluations keys getObject mn mv).length =
      (commonPfxs keys (listPfx mn mv)).length := by
  constructor
  · unfold list_evaluations
    apply List.mem_map.mpr
    exact ⟨p, hp, by rw [hfail]⟩
  · unfold list_evaluations
    exact List.length_map _ _

/-- Witness for C4: one key, summary fetch always failing. -/
theorem listing_summary_fallback_witness :
    fallbackEntry "evaluations/m/" ∈
      list_evaluations ["evaluations/m/1/e1/f.json"] (fun _ => none) none none ∧
    (list_evaluations ["evaluations/m/1/e1/f.json"] (fun _ => none) none none).length =
      (commonPfxs ["evaluations/m/1/e1/f.json"] (listPfx none none)).length :=
  listing_summary_fallback ["evaluations/m/1/e1/f.json"] (fun _ => none) none none
    "evaluations/m/" (by decide) rfl

/-- Claim C6: the listing query prefix is `evaluations/` with no filters (a
version filter alone has no effect), `evaluations/{model_name}/` with only a
model name, `evaluations/{model_name}/{model_version}/` with both; and every
grouping in any listing result carries a storage prefix extending the query
prefix. -/
theorem listing_query_pfx_shape (mn mv : String) (hm : mn ≠ "") (hv : mv ≠ "")
    (keys : List String) (getObject : String → Option (List (String × String))) :
    (∀ v : Option String, listPfx none v = "evaluations/") ∧
    listPfx (some mn) none = "evaluations/" ++ mn ++ "/" ∧
    listPfx (some mn) (some mv) = "evaluations/" ++ mn ++ "/" ++ mv ++ "/" ∧
    (∀ (fm fv : Option String) (e : List (String × String)),
      e ∈ list_evaluations keys getObject fm fv →
      ∃ r : String, ("s3_prefix", listPfx fm fv ++ r) ∈ e) := by
  refine ⟨fun v => rfl, ?_, ?_, ?_⟩
  · unfold listPfx
    simp only [pyTruthy_some_ne mn hm, eq_self_iff_true, if_true, Option.getD_some]
    rfl
  · unfold listPfx
    simp only [pyTruthy_some_ne mn hm, pyTruthy_some_ne mv hv, eq_self_iff_true, if_true,
      Option.getD_some]
  · intro fm fv e he
    unfold list_evaluations at he
    obtain ⟨p, hp, hpe⟩ := List.mem_map.mp he
    obtain ⟨r, hr⟩ := commonPfx_extends keys (listPfx fm fv) p hp
    refine ⟨r, ?_⟩
    rw [← hr]
    cases hg : getObject (summaryKey p) with
    | none =>
      rw [hg] at hpe
      rw [← hpe]
      simp [fallbackEntry]
    | some md =>
      rw [hg] at hpe
      rw [← hpe]
      exact dictSet_mem md "s3_prefix" p

/-- Witness for C6 at model name "m", version "1". -/
theorem listing_query_pfx_shape_witness :
    (∀ v : Option String, listPfx none v = "evaluations/") ∧
    listPfx (some "m") none = "evaluations/" ++ "m" ++ "/" ∧
    listPfx (some "m") (some "1") = "evaluations/" ++ "m" ++ "/" ++ "1" ++ "/" ∧
    (∀ (fm fv : Option String) (e : List (String × String)),
      e ∈ list_evaluations ["evaluations/m/1/e1/f.json"] (fun _ => none) fm fv →
      ∃ r : String, ("s3_prefix", listPfx fm fv ++ r) ∈ e) :=
  listing_query_pfx_shape "m" "1" (by decide) (by decide)
    ["evaluations/m/1/e1/f.json"] (fun _ => none)

/-- Claim C7: an evaluation upload with no id supplied generates the id
`{model}_{version}_{YYYYMMDD_HHMMSS}` and returns the storage prefix
`evaluations/{model}/{version}/{evaluation_id}`; ids generated at timestamps
differing in any second-granularity field are distinct. -/
theorem eval_id_generation_and_distinctness (bucket : String) (ew : EvalWorld)
    (m v : String) (now : DateTime) (hdir : ew.dirExists = true) :
    (∃ out, upload_evaluation_results bucket ew m v none now = Except.ok out ∧
      out.s3Pfx = evalPfx m v (genEvalId m v now) ∧
      genEvalId m v now = m ++ "_" ++ v ++ "_" ++ fmtTimestamp now) ∧
    (∀ t1 t2 : DateTime, validDT t1 → validDT t2 → t1 ≠ t2 →
      genEvalId m v t1 ≠ genEvalId m v t2) := by
  constructor
  · unfold upload_evaluation_results
    rw [hdir]
    simp only [Bool.not_true, Bool.false_eq_true, if_false, pyTruthy]
    exact ⟨_, rfl, rfl, rfl⟩
  · intro t1 t2 hv1 hv2 hne heq
    apply hne
    apply fmtTimestamp_inj t1 t2 hv1 hv2
    apply String.ext
    have hd := congrArg String.data heq
    simpa [genEvalId, String.data_append, List.append_assoc,
      List.append_cancel_left_eq] using hd

/-- Witness for C7: concrete upload and two timestamps one second apart. -/
theorem eval_id_generation_and_distinctness_witness :
    (∃ out, upload_evaluation_results "b" ⟨true, []⟩ "m" "1" none
        ⟨2025, 1, 2, 3, 4, 5⟩ = Except.ok out ∧
      out.s3Pfx = evalPfx "m" "1" (genEvalId "m" "1" ⟨2025, 1, 2, 3, 4, 5⟩) ∧
      genEvalId "m" "1" ⟨2025, 1, 2, 3, 4, 5⟩ =
        "m" ++ "_" ++ "1" ++ "_" ++ fmtTimestamp ⟨2025, 1, 2, 3, 4, 5⟩) ∧
    genEvalId "m" "1" ⟨2025, 1, 2, 3, 4, 5⟩ ≠ genEvalId "m" "1" ⟨2025, 1, 2, 3, 4, 6⟩ := by
  have h := eval_id_generation_and_distinctness "b" ⟨true, []⟩ "m" "1"
    ⟨2025, 1, 2, 3, 4, 5⟩ rfl
  exact ⟨h.1, h.2 ⟨2025, 1, 2, 3, 4, 5⟩ ⟨2025, 1, 2, 3, 4, 6⟩
    (by unfold validDT; decide) (by unfold validDT; decide) (by decide)⟩

end GenaiAmep
